import Mathlib

/-!
Verification of the `BoostMonitor` core of `src/monitor.py`.

The monitor is a polling loop over external collaborators (HTTP fetches,
a quota oracle, a Telegram notifier, a trade canceller).  We embed one
loop iteration (`monitor_tick`) and its two handlers (`contribute_card`,
`handle_card_change_without_boost`) as pure functions over an oracle
environment that fixes the outcome of every external call made during
that iteration.  Each function returns the ordered list of external
actions it performed (its event trace) together with its Python return
value and the updated monitor state, so that the ordering and
state-invariant properties of the spec become statements about traces
and result states.
-/

namespace AutoMB

/-- A boost-card descriptor as returned by `get_boost_card_info` (a dict in
the source).  `id` is the instance handle (`.get('id', 0)`), `card_id` the
logical card identity (`.get('card_id', 0)`); the Python default `0` stands
for a missing field and is falsy.  Display-only fields (`name`, `rank`,
`owners_count`, `wanters_count`, `club_members`) are never branched on by
the monitor and are omitted. -/
structure Card where
  id : Nat
  card_id : Nat
deriving DecidableEq, Repr

/-- One external action performed by the monitor, labelled by call site:
`identityFetch` is `get_boost_card_info` inside `check_card_changed`,
`boostProbe` the page request inside `check_boost_available`,
`canDonateQuery` a `stats_manager.can_donate(force_refresh=True)` call,
`descFetch` a `get_boost_card_info` inside `contribute_card` or
`handle_card_change_without_boost`, `sendContribute` the POST in
`_send_contribute_request`, `notifyTelegram` the call to
`_send_telegram_notification`, `saveCard` the file write in
`_save_boost_card`, `setFlag` an assignment to `self.card_changed`,
`cancelTrades` the call to `_cancel_pending_trades`, and `refreshStats`
the call to `stats_manager.refresh_stats`. -/
inductive Event where
  | identityFetch (res : Option Card)
  | boostProbe (res : Option String)
  | canDonateQuery (res : Bool)
  | descFetch (res : Option Card)
  | sendContribute (res : Bool)
  | notifyTelegram
  | saveCard (c : Card)
  | setFlag (b : Bool)
  | cancelTrades
  | refreshStats
deriving DecidableEq, Repr

/-- The mutable fields of `BoostMonitor` that the loop body reads or
writes (`self.card_changed`, `self.current_card_id`,
`self.boost_available`).  `current_card_id` is `None` initially, hence
`Option Nat`; a stored `0` is falsy in the Python truthiness tests. -/
structure MState where
  card_changed : Bool
  current_card_id : Option Nat
  boost_available : Bool
deriving DecidableEq, Repr

/-- `BoostMonitor.check_card_changed`, with the result of its
`get_boost_card_info` call supplied as `fetched` (a fetch failure or
exception yields `none`).  Returns the new card id when
`new_card_id and self.current_card_id and new_card_id != self.current_card_id`
holds under Python truthiness, else `None`. -/
def check_card_changed (fetched : Option Card) (s : MState) : Option Nat :=
  match fetched with
  | none => none
  | some c =>
    match s.current_card_id with
    | none => none
    | some cur =>
      if c.card_id ≠ 0 ∧ cur ≠ 0 ∧ c.card_id ≠ cur then some c.card_id
      else none

/-- Oracle outcomes for the external calls `contribute_card` can make,
in program order: the two `can_donate` checks, the pre-submit descriptor
fetch, the POST result, and the post-submit re-fetch. -/
structure ContribEnv where
  canDonate1 : Bool
  fetchCurrent : Option Card
  canDonate2 : Bool
  submitOk : Bool
  fetchNew : Option Card
deriving DecidableEq, Repr

/-- `BoostMonitor.contribute_card`.  Returns the event trace, the Python
return value, and the updated state.  Mirrors the source exactly: limit
check; descriptor fetch (fail on `None` or falsy instance id); second
limit check; submit (fail on non-200); 1 s settle; re-fetch (on `None`:
cancel trades, refresh stats, return `False`); identity comparison — on
change notify, save, set `current_card_id` and `card_changed`; otherwise
only set `current_card_id`; then cancel trades, refresh stats, return
`True`. -/
def contribute_card (env : ContribEnv) (s : MState) :
    List Event × Bool × MState :=
  if ¬ env.canDonate1 then
    ([Event.canDonateQuery false], false, s)
  else
    match env.fetchCurrent with
    | none => ([Event.canDonateQuery true, Event.descFetch none], false, s)
    | some cur =>
      if cur.id = 0 then
        ([Event.canDonateQuery true, Event.descFetch (some cur)], false, s)
      else if ¬ env.canDonate2 then
        ([Event.canDonateQuery true, Event.descFetch (some cur),
          Event.canDonateQuery false], false, s)
      else if ¬ env.submitOk then
        ([Event.canDonateQuery true, Event.descFetch (some cur),
          Event.canDonateQuery true, Event.sendContribute false], false, s)
      else
        match env.fetchNew with
        | none =>
          ([Event.canDonateQuery true, Event.descFetch (some cur),
            Event.canDonateQuery true, Event.sendContribute true,
            Event.descFetch none, Event.cancelTrades, Event.refreshStats],
           false, s)
        | some nc =>
          if nc.card_id ≠ cur.card_id then
            ([Event.canDonateQuery true, Event.descFetch (some cur),
              Event.canDonateQuery true, Event.sendContribute true,
              Event.descFetch (some nc), Event.notifyTelegram,
              Event.saveCard nc, Event.setFlag true,
              Event.cancelTrades, Event.refreshStats],
             true,
             { s with current_card_id := some nc.card_id, card_changed := true })
          else
            ([Event.canDonateQuery true, Event.descFetch (some cur),
              Event.canDonateQuery true, Event.sendContribute true,
              Event.descFetch (some nc),
              Event.cancelTrades, Event.refreshStats],
             true,
             { s with current_card_id := some cur.card_id })

/-- `BoostMonitor.handle_card_change_without_boost`, with the result of
its `get_boost_card_info` re-fetch supplied as `fetched`.  Cancels
pending trades first, waits, re-fetches; on `None` returns `False`
without touching state; otherwise notifies, saves, updates
`current_card_id` to the detected id and sets `card_changed`. -/
def handle_card_change_without_boost (fetched : Option Card) (newId : Nat)
    (s : MState) : List Event × Bool × MState :=
  match fetched with
  | none => ([Event.cancelTrades, Event.descFetch none], false, s)
  | some c =>
    ([Event.cancelTrades, Event.descFetch (some c), Event.notifyTelegram,
      Event.saveCard c, Event.setFlag true],
     true,
     { s with current_card_id := some newId, card_changed := true })

/-- Oracle outcomes for one iteration of `monitor_loop`: the identity
fetch of `check_card_changed`, the re-fetch inside the change handler,
the boost probe of `check_boost_available`, the loop-level `can_donate`
check, and the outcomes consumed by `contribute_card`. -/
structure TickEnv where
  identityRes : Option Card
  handlerFetch : Option Card
  boostRes : Option String
  canDonateLoop : Bool
  contrib : ContribEnv
deriving Repr

/-- One iteration of `BoostMonitor.monitor_loop` (heartbeat prints and
sleeps elided).  First `check_card_changed`; on a truthy result dispatch
the change handler and continue.  Otherwise `check_boost_available`; on
an opportunity immediately set `card_changed := True`, then check the
limit: if allowed run `contribute_card` and on failure reset the flag,
setting `boost_available` on success; if denied reset the flag. -/
def monitor_tick (env : TickEnv) (s : MState) : List Event × MState :=
  match check_card_changed env.identityRes s with
  | some nid =>
    let r := handle_card_change_without_boost env.handlerFetch nid s
    (Event.identityFetch env.identityRes :: r.1, r.2.2)
  | none =>
    match env.boostRes with
    | some u =>
      let s1 : MState := { s with card_changed := true }
      if env.canDonateLoop then
        let r := contribute_card env.contrib s1
        if r.2.1 then
          (Event.identityFetch env.identityRes :: Event.boostProbe (some u) ::
            Event.setFlag true :: Event.canDonateQuery true :: r.1,
           { r.2.2 with boost_available := true })
        else
          (Event.identityFetch env.identityRes :: Event.boostProbe (some u) ::
            Event.setFlag true :: Event.canDonateQuery true ::
            (r.1 ++ [Event.setFlag false]),
           { r.2.2 with card_changed := false })
      else
        ([Event.identityFetch env.identityRes, Event.boostProbe (some u),
          Event.setFlag true, Event.canDonateQuery false,
          Event.setFlag false],
         { s1 with card_changed := false })
    | none =>
      ([Event.identityFetch env.identityRes, Event.boostProbe none], s)

/-- Whether an event is one of the network-facing calls made for a
detected opportunity: a quota check, a descriptor fetch inside the
contribution path, or the contribution POST. -/
def isOppNet : Event → Bool
  | Event.canDonateQuery _ => true
  | Event.descFetch _ => true
  | Event.sendContribute _ => true
  | _ => false

/-- Whether a trace contains a `_save_boost_card` write. -/
def hasSave : List Event → Bool
  | [] => false
  | Event.saveCard _ :: _ => true
  | _ :: r => hasSave r

/-- Whether a trace contains a `_send_contribute_request` call. -/
def hasSubmit : List Event → Bool
  | [] => false
  | Event.sendContribute _ :: _ => true
  | _ :: r => hasSubmit r

/-- C7: if `current_card_id` is unset (`None`), `check_card_changed`
returns `None` for every fetched descriptor, so the very first observed
identity never triggers the identity-change handler. -/
theorem check_card_changed_none_when_unset (fetched : Option Card)
    (s : MState) (h : s.current_card_id = none) :
    check_card_changed fetched s = none := by
  cases fetched with
  | none => rfl
  | some c => simp [check_card_changed, h]

theorem check_card_changed_none_when_unset_witness :
    check_card_changed (some ⟨3, 150⟩) ⟨false, none, false⟩ = none :=
  check_card_changed_none_when_unset _ _ rfl

/-- C8: if the first `can_donate` query of an attempt allows but the
second denies, `contribute_card` performs no `_send_contribute_request`
call and returns `False`. -/
theorem quota_second_denial_blocks_submit (env : ContribEnv) (s : MState)
    (h1 : env.canDonate1 = true) (h2 : env.canDonate2 = false) :
    hasSubmit (contribute_card env s).1 = false ∧
    (contribute_card env s).2.1 = false := by
  rcases env with ⟨c1, fc, c2, sub, fn⟩
  cases h1
  cases h2
  cases fc with
  | none => simp [contribute_card, hasSubmit]
  | some cur =>
    by_cases hi : cur.id = 0 <;> simp [contribute_card, hi, hasSubmit]

theorem quota_second_denial_blocks_submit_witness :
    hasSubmit (contribute_card ⟨true, some ⟨5, 7⟩, false, true, none⟩
      ⟨false, none, false⟩).1 = false ∧
    (contribute_card ⟨true, some ⟨5, 7⟩, false, true, none⟩
      ⟨false, none, false⟩).2.1 = false :=
  quota_second_denial_blocks_submit _ _ rfl rfl

/-- C9: in a handler run whose re-fetch returns a descriptor,
`_cancel_pending_trades` occurs strictly before the Telegram
notification, and the final state has `current_card_id` equal to the
detected identity and `card_changed` left `True`. -/
theorem handler_cancel_before_notify (fetched : Option Card) (newId : Nat)
    (s : MState) (c : Card) (h : fetched = some c) :
    ∃ pre mid,
      (handle_card_change_without_boost fetched newId s).1 =
        pre ++ Event.cancelTrades :: mid ∧
      Event.notifyTelegram ∉ pre ∧ Event.notifyTelegram ∈ mid ∧
      (handle_card_change_without_boost fetched newId s).2.2.current_card_id
        = some newId ∧
      (handle_card_change_without_boost fetched newId s).2.2.card_changed
        = true := by
  subst h
  exact ⟨[], [Event.descFetch (some c), Event.notifyTelegram,
    Event.saveCard c, Event.setFlag true], rfl, by simp, by simp, rfl, rfl⟩

theorem handler_cancel_before_notify_witness :
    ∃ pre mid,
      (handle_card_change_without_boost (some ⟨3, 150⟩) 150
        ⟨false, some 100, false⟩).1 = pre ++ Event.cancelTrades :: mid ∧
      Event.notifyTelegram ∉ pre ∧ Event.notifyTelegram ∈ mid ∧
      (handle_card_change_without_boost (some ⟨3, 150⟩) 150
        ⟨false, some 100, false⟩).2.2.current_card_id = some 150 ∧
      (handle_card_change_without_boost (some ⟨3, 150⟩) 150
        ⟨false, some 100, false⟩).2.2.card_changed = true :=
  handler_cancel_before_notify _ _ _ ⟨3, 150⟩ rfl

/-- C10: if the handler's re-fetch returns no descriptor, the handler
returns `False` and leaves the whole monitor state — in particular
`current_card_id` and `card_changed` — unchanged, so the same identity
change is re-detected on the next tick. -/
theorem handler_fetch_failure_no_mutation (newId : Nat) (s : MState) :
    (handle_card_change_without_boost none newId s).2.1 = false ∧
    (handle_card_change_without_boost none newId s).2.2 = s :=
  ⟨rfl, rfl⟩

/-- C6: in a `contribute_card` run whose submission succeeded and whose
re-fetched descriptor carries a changed identity, the Telegram
notification occurs strictly before `_cancel_pending_trades` and
strictly before `stats_manager.refresh_stats`. -/
theorem notify_before_cleanup (env : ContribEnv) (s : MState)
    (cur nc : Card) (h1 : env.canDonate1 = true)
    (hcur : env.fetchCurrent = some cur) (hi : cur.id ≠ 0)
    (h2 : env.canDonate2 = true) (hs : env.submitOk = true)
    (hnew : env.fetchNew = some nc) (hch : nc.card_id ≠ cur.card_id) :
    ∃ pre mid,
      (contribute_card env s).1 = pre ++ Event.notifyTelegram :: mid ∧
      Event.cancelTrades ∉ pre ∧ Event.refreshStats ∉ pre ∧
      Event.cancelTrades ∈ mid ∧ Event.refreshStats ∈ mid := by
  rcases env with ⟨c1, fc, c2, sub, fn⟩
  cases h1
  cases h2
  cases hs
  cases hcur
  cases hnew
  refine ⟨[Event.canDonateQuery true, Event.descFetch (some cur),
    Event.canDonateQuery true, Event.sendContribute true,
    Event.descFetch (some nc)],
    [Event.saveCard nc, Event.setFlag true, Event.cancelTrades,
     Event.refreshStats], ?_, by simp, by simp, by simp, by simp⟩
  simp [contribute_card, hi, hch]

theorem notify_before_cleanup_witness :
    ∃ pre mid,
      (contribute_card ⟨true, some ⟨5, 7⟩, true, true, some ⟨6, 9⟩⟩
        ⟨false, none, false⟩).1 = pre ++ Event.notifyTelegram :: mid ∧
      Event.cancelTrades ∉ pre ∧ Event.refreshStats ∉ pre ∧
      Event.cancelTrades ∈ mid ∧ Event.refreshStats ∈ mid :=
  notify_before_cleanup _ _ ⟨5, 7⟩ ⟨6, 9⟩ rfl rfl (by decide) rfl rfl rfl
    (by decide)

/-- C1: in every tick in which `check_boost_available` returns an
opportunity URL (and no identity change pre-empted it), the trace of the
tick decomposes as a prefix containing no quota check, no contribution
descriptor fetch and no `_send_contribute_request` call, followed by the
`card_changed := True` assignment: the cancellation signal is set
strictly before any further network call for the opportunity. -/
theorem cancel_flag_precedes_opportunity_io (env : TickEnv) (s : MState)
    (u : String) (hcc : check_card_changed env.identityRes s = none)
    (hb : env.boostRes = some u) :
    ∃ pre mid,
      (monitor_tick env s).1 = pre ++ Event.setFlag true :: mid ∧
      ∀ e ∈ pre, isOppNet e = false := by
  cases hq : env.canDonateLoop with
  | false =>
    refine ⟨[Event.identityFetch env.identityRes, Event.boostProbe (some u)],
      [Event.canDonateQuery false, Event.setFlag false], ?_, ?_⟩
    · simp [monitor_tick, hcc, hb, hq]
    · simp [isOppNet]
  | true =>
    cases hr : (contribute_card env.contrib { s with card_changed := true }).2.1 with
    | false =>
      refine ⟨[Event.identityFetch env.identityRes, Event.boostProbe (some u)],
        Event.canDonateQuery true ::
          ((contribute_card env.contrib { s with card_changed := true }).1 ++
            [Event.setFlag false]), ?_, ?_⟩
      · simp [monitor_tick, hcc, hb, hq, hr]
      · simp [isOppNet]
    | true =>
      refine ⟨[Event.identityFetch env.identityRes, Event.boostProbe (some u)],
        Event.canDonateQuery true ::
          (contribute_card env.contrib { s with card_changed := true }).1,
        ?_, ?_⟩
      · simp [monitor_tick, hcc, hb, hq, hr]
      · simp [isOppNet]

theorem cancel_flag_precedes_opportunity_io_witness :
    ∃ pre mid,
      (monitor_tick ⟨none, none, some "u", true,
        ⟨true, some ⟨5, 7⟩, true, true, some ⟨6, 9⟩⟩⟩
        ⟨false, none, false⟩).1 = pre ++ Event.setFlag true :: mid ∧
      ∀ e ∈ pre, isOppNet e = false :=
  cancel_flag_precedes_opportunity_io _ _ "u" rfl rfl

/-- In a `contribute_card` run that returns `True`, every `can_donate`
query was answered `True` and the submission succeeded: the trace
contains neither a failed submission nor a denying quota answer. -/
theorem contribute_success_no_denial (env : ContribEnv) (s : MState)
    (h : (contribute_card env s).2.1 = true) :
    Event.sendContribute false ∉ (contribute_card env s).1 ∧
    Event.canDonateQuery false ∉ (contribute_card env s).1 := by
  rcases env with ⟨c1, fc, c2, sub, fn⟩
  cases c1
  · simp [contribute_card] at h
  · cases fc with
    | none => simp [contribute_card] at h
    | some cur =>
      by_cases hi : cur.id = 0
      · simp [contribute_card, hi] at h
      · cases c2
        · simp [contribute_card, hi] at h
        · cases sub
          · simp [contribute_card, hi] at h
          · cases fn with
            | none => simp [contribute_card, hi] at h
            | some nc =>
              by_cases hch : nc.card_id = cur.card_id <;>
                simp [contribute_card, hi, hch]

/-- C5: in every opportunity tick in which the attempt does not go
through — the submission POST failed or some `can_donate` query denied
(at the loop level or inside `contribute_card`) — the cancellation
signal `card_changed` ends the cycle as `False`. -/
theorem flag_reset_on_denied_or_failed_submit (env : TickEnv) (s : MState)
    (u : String) (hcc : check_card_changed env.identityRes s = none)
    (hb : env.boostRes = some u)
    (hfail : Event.sendContribute false ∈ (monitor_tick env s).1 ∨
      Event.canDonateQuery false ∈ (monitor_tick env s).1) :
    (monitor_tick env s).2.card_changed = false := by
  cases hq : env.canDonateLoop with
  | false => simp [monitor_tick, hcc, hb, hq]
  | true =>
    cases hr : (contribute_card env.contrib { s with card_changed := true }).2.1 with
    | false => simp [monitor_tick, hcc, hb, hq, hr]
    | true =>
      exfalso
      have hd := contribute_success_no_denial env.contrib
        { s with card_changed := true } hr
      simp [monitor_tick, hcc, hb, hq, hr] at hfail
      rcases hfail with hf | hf
      · exact hd.1 hf
      · exact hd.2 hf

theorem flag_reset_on_denied_or_failed_submit_witness :
    (monitor_tick ⟨none, none, some "u", true,
      ⟨true, some ⟨5, 7⟩, true, false, none⟩⟩
      ⟨false, none, false⟩).2.card_changed = false :=
  flag_reset_on_denied_or_failed_submit _ _ "u" rfl rfl (Or.inl (by decide))

/-- C2 counterexample: a run in which the submission succeeded but the
post-submit re-fetch returned no descriptor: `contribute_card` returns
`False`, refuting the claim that a successful submission yields `True`
for every outcome of the later steps. -/
theorem contribute_refetch_none_counterexample :
    Event.sendContribute true ∈
      (contribute_card ⟨true, some ⟨5, 7⟩, true, true, none⟩
        ⟨false, none, false⟩).1 ∧
    (contribute_card ⟨true, some ⟨5, 7⟩, true, true, none⟩
      ⟨false, none, false⟩).2.1 = false := by
  decide

/-- C2 amended: `contribute_card` returns `True` whenever the submission
step succeeded and the post-submit re-fetch returned a descriptor,
independent of whether the identity changed or not. -/
theorem contribute_success_when_submit_ok_and_refetch_ok (env : ContribEnv)
    (s : MState) (nc : Card)
    (hsub : Event.sendContribute true ∈ (contribute_card env s).1)
    (hnew : env.fetchNew = some nc) :
    (contribute_card env s).2.1 = true := by
  rcases env with ⟨c1, fc, c2, sub, fn⟩
  cases hnew
  cases c1
  · simp [contribute_card] at hsub
  · cases fc with
    | none => simp [contribute_card] at hsub
    | some cur =>
      by_cases hi : cur.id = 0
      · simp [contribute_card, hi] at hsub
      · cases c2
        · simp [contribute_card, hi] at hsub
        · cases sub
          · simp [contribute_card, hi] at hsub
          · by_cases hch : nc.card_id = cur.card_id <;>
              simp [contribute_card, hi, hch]

theorem contribute_success_when_submit_ok_and_refetch_ok_witness :
    (contribute_card ⟨true, some ⟨5, 7⟩, true, true, some ⟨6, 9⟩⟩
      ⟨false, none, false⟩).2.1 = true :=
  contribute_success_when_submit_ok_and_refetch_ok _ _ ⟨6, 9⟩ (by decide) rfl

/-- C3 counterexample: a run in which the submission succeeded and the
re-fetch returned a descriptor with an unchanged identity: no
`_save_boost_card` write occurs, refuting the claim that the latest
descriptor is persisted in both branches of the identity comparison. -/
theorem save_skipped_on_unchanged_counterexample :
    Event.sendContribute true ∈
      (contribute_card ⟨true, some ⟨5, 7⟩, true, true, some ⟨6, 7⟩⟩
        ⟨false, none, false⟩).1 ∧
    Event.descFetch (some ⟨6, 7⟩) ∈
      (contribute_card ⟨true, some ⟨5, 7⟩, true, true, some ⟨6, 7⟩⟩
        ⟨false, none, false⟩).1 ∧
    hasSave (contribute_card ⟨true, some ⟨5, 7⟩, true, true, some ⟨6, 7⟩⟩
      ⟨false, none, false⟩).1 = false := by
  decide

/-- C3 amended: in a run whose submission succeeded and whose re-fetch
returned a descriptor, the descriptor is persisted precisely when its
identity differs from the pre-submit one; the write, when it happens,
stores the re-fetched descriptor. -/
theorem save_exactly_on_identity_change (env : ContribEnv) (s : MState)
    (cur nc : Card)
    (hsub : Event.sendContribute true ∈ (contribute_card env s).1)
    (hcur : env.fetchCurrent = some cur) (hnew : env.fetchNew = some nc) :
    (hasSave (contribute_card env s).1 = true ↔ nc.card_id ≠ cur.card_id) ∧
    (nc.card_id ≠ cur.card_id →
      Event.saveCard nc ∈ (contribute_card env s).1) := by
  rcases env with ⟨c1, fc, c2, sub, fn⟩
  cases hcur
  cases hnew
  cases c1
  · simp [contribute_card] at hsub
  · by_cases hi : cur.id = 0
    · simp [contribute_card, hi] at hsub
    · cases c2
      · simp [contribute_card, hi] at hsub
      · cases sub
        · simp [contribute_card, hi] at hsub
        · by_cases hch : nc.card_id = cur.card_id <;>
            simp [contribute_card, hi, hch, hasSave]

theorem save_exactly_on_identity_change_witness :
    (hasSave (contribute_card ⟨true, some ⟨5, 7⟩, true, true, some ⟨6, 9⟩⟩
        ⟨false, none, false⟩).1 = true ↔
      (Card.mk 6 9).card_id ≠ (Card.mk 5 7).card_id) ∧
    ((Card.mk 6 9).card_id ≠ (Card.mk 5 7).card_id →
      Event.saveCard ⟨6, 9⟩ ∈
        (contribute_card ⟨true, some ⟨5, 7⟩, true, true, some ⟨6, 9⟩⟩
          ⟨false, none, false⟩).1) :=
  save_exactly_on_identity_change _ _ ⟨5, 7⟩ ⟨6, 9⟩ (by decide) rfl rfl

/-- `contribute_card` never clears the cancellation flag: no
`card_changed := False` assignment occurs anywhere in the pipeline. -/
theorem contribute_card_no_flag_clear (env : ContribEnv) (s : MState) :
    Event.setFlag false ∉ (contribute_card env s).1 := by
  rcases env with ⟨c1, fc, c2, sub, fn⟩
  cases c1
  · simp [contribute_card]
  · cases fc with
    | none => simp [contribute_card]
    | some cur =>
      by_cases hi : cur.id = 0
      · simp [contribute_card, hi]
      · cases c2
        · simp [contribute_card, hi]
        · cases sub
          · simp [contribute_card, hi]
          · cases fn with
            | none => simp [contribute_card, hi]
            | some nc =>
              by_cases hch : nc.card_id = cur.card_id <;>
                simp [contribute_card, hi, hch]

/-- If the cancellation flag is `True` on entry to `contribute_card`, it
is still `True` in the resulting state in every branch. -/
theorem contribute_card_keeps_flag (env : ContribEnv) (s : MState)
    (h : s.card_changed = true) :
    (contribute_card env s).2.2.card_changed = true := by
  rcases env with ⟨c1, fc, c2, sub, fn⟩
  cases c1
  · simp [contribute_card, h]
  · cases fc with
    | none => simp [contribute_card, h]
    | some cur =>
      by_cases hi : cur.id = 0
      · simp [contribute_card, hi, h]
      · cases c2
        · simp [contribute_card, hi, h]
        · cases sub
          · simp [contribute_card, hi, h]
          · cases fn with
            | none => simp [contribute_card, hi, h]
            | some nc =>
              by_cases hch : nc.card_id = cur.card_id <;>
                simp [contribute_card, hi, hch, h]

/-- C4 counterexample: an opportunity tick whose submission POST
succeeded but whose post-submit re-fetch returned no descriptor:
`contribute_card` returns `False` and the loop resets `card_changed`, so
the flag is `False` at cycle end after a successful submission —
refuting the claim that it is never false at cycle end after a
successful submission. -/
theorem flag_false_after_successful_submit_counterexample :
    Event.sendContribute true ∈
      (monitor_tick ⟨none, none, some "u", true,
        ⟨true, some ⟨5, 7⟩, true, true, none⟩⟩ ⟨false, none, false⟩).1 ∧
    (monitor_tick ⟨none, none, some "u", true,
      ⟨true, some ⟨5, 7⟩, true, true, none⟩⟩
      ⟨false, none, false⟩).2.card_changed = false := by
  decide

/-- C4 amended: in an opportunity tick admitted by the loop-level quota
check, the cancellation signal is never cleared inside `contribute_card`
and is still `True` in the pipeline's resulting state; at cycle end it
equals `contribute_card`'s return value — so it stays `True` after the
cycle iff the pipeline reported success, and is reset whenever the
pipeline returned `False`, including the case where the submission
succeeded but the post-submit re-fetch returned no descriptor. -/
theorem flag_holds_through_pipeline (env : TickEnv) (s : MState)
    (u : String) (hcc : check_card_changed env.identityRes s = none)
    (hb : env.boostRes = some u) (hq : env.canDonateLoop = true) :
    Event.setFlag false ∉
      (contribute_card env.contrib { s with card_changed := true }).1 ∧
    (contribute_card env.contrib
      { s with card_changed := true }).2.2.card_changed = true ∧
    (monitor_tick env s).2.card_changed =
      (contribute_card env.contrib { s with card_changed := true }).2.1 := by
  refine ⟨contribute_card_no_flag_clear _ _,
    contribute_card_keeps_flag _ _ rfl, ?_⟩
  cases hr : (contribute_card env.contrib { s with card_changed := true }).2.1 with
  | false => simp [monitor_tick, hcc, hb, hq, hr]
  | true =>
    have hk := contribute_card_keeps_flag env.contrib
      { s with card_changed := true } rfl
    simp [monitor_tick, hcc, hb, hq, hr, hk]

theorem flag_holds_through_pipeline_witness :
    Event.setFlag false ∉
      (contribute_card ⟨true, some ⟨5, 7⟩, true, true, some ⟨6, 9⟩⟩
        { (⟨false, none, false⟩ : MState) with card_changed := true }).1 ∧
    (contribute_card ⟨true, some ⟨5, 7⟩, true, true, some ⟨6, 9⟩⟩
      { (⟨false, none, false⟩ : MState) with
        card_changed := true }).2.2.card_changed = true ∧
    (monitor_tick ⟨none, none, some "u", true,
      ⟨true, some ⟨5, 7⟩, true, true, some ⟨6, 9⟩⟩⟩
      ⟨false, none, false⟩).2.card_changed =
      (contribute_card ⟨true, some ⟨5, 7⟩, true, true, some ⟨6, 9⟩⟩
        { (⟨false, none, false⟩ : MState) with card_changed := true }).2.1 :=
  flag_holds_through_pipeline
    ⟨none, none, some "u", true, ⟨true, some ⟨5, 7⟩, true, true, some ⟨6, 9⟩⟩⟩
    ⟨false, none, false⟩ "u" rfl rfl rfl

end AutoMB
